import Mathlib

/-!
Verification development for the nzcp decoder core: the barcode scheme
parser, the base-32 boundary, the CWT binary payload model, the verifiable
credential envelope, the DID parser and the PublicCovidPass subject.

Strings are modelled as `List Char` (Rust `&str` at the character level),
bytes as `Nat` (each < 256 at the base-32 boundary by construction).

External crates (`base32`, `chrono`, `serde_cbor`, `uuid`) are not part of
the repository: where their behaviour decides a property they are modelled
from the specification's contract, and each such definition says so in its
doc comment.
-/

/-- Models Rust `str::strip_prefix`: `some r` when the second list is the
first list (the prefix) followed by `r`, otherwise `none`. -/
def stripPfx : List Char → List Char → Option (List Char)
  | [], s => some s
  | _ :: _, [] => none
  | p :: ps, c :: cs => if c = p then stripPfx ps cs else none

theorem stripPfx_self_append (p s : List Char) : stripPfx p (p ++ s) = some s := by
  induction p with
  | nil => rfl
  | cons c cs ih => simp [stripPfx, ih]

theorem stripPfx_eq_some_iff (p : List Char) :
    ∀ s r : List Char, stripPfx p s = some r ↔ s = p ++ r := by
  induction p with
  | nil =>
    intro s r
    simp [stripPfx]
  | cons c cs ih =>
    intro s r
    cases s with
    | nil => simp [stripPfx]
    | cons a as =>
      by_cases h : a = c
      · subst h
        simp [stripPfx, ih]
      · simp [stripPfx, h, Ne.symm h]

theorem stripPfx_eq_none_of_not_isPrefixOf (p s : List Char)
    (h : p.isPrefixOf s = false) : stripPfx p s = none := by
  cases hres : stripPfx p s with
  | none => rfl
  | some r =>
    rw [stripPfx_eq_some_iff] at hres
    subst hres
    have hp : p.isPrefixOf (p ++ r) = true := by
      rw [List.isPrefixOf_iff_prefix]
      exact List.prefix_append p r
    rw [hp] at h
    simp at h

/-- Error taxonomy of the barcode scheme parser (`QrBarcodeError` in
`payload/barcode.rs`). -/
inductive QrBarcodeError where
  | InvalidBase32
  | InvalidVersion
  | MissingNzcpPrefix
deriving DecidableEq, Repr

/-- Value of one character of the unpadded RFC 4648 base-32 alphabet
(`A`..`Z` → 0..25, `2`..`7` → 26..31), `none` for a character outside the
alphabet. Modelled from the spec: the external `base32` crate boundary is
described as "the standard (unpadded) base-32 alphabet". -/
def b32val (c : Char) : Option Nat :=
  if 'A' ≤ c ∧ c ≤ 'Z' then some (c.toNat - 65)
  else if '2' ≤ c ∧ c ≤ '7' then some (c.toNat - 24)
  else none

/-- Five bits of a base-32 symbol value, most significant first. -/
def bits5 (n : Nat) : List Nat :=
  [n / 16 % 2, n / 8 % 2, n / 4 % 2, n / 2 % 2, n % 2]

/-- Concatenation of the five-bit groups of all symbol values. -/
def flat5 : List Nat → List Nat
  | [] => []
  | v :: vs => bits5 v ++ flat5 vs

/-- Packs a most-significant-first bit list into bytes, dropping the final
incomplete group (the zero pad bits of the unpadded encoding). -/
def packBytes : List Nat → List Nat
  | b0 :: b1 :: b2 :: b3 :: b4 :: b5 :: b6 :: b7 :: rest =>
      (b0 * 128 + b1 * 64 + b2 * 32 + b3 * 16 + b4 * 8 + b5 * 4 + b6 * 2 + b7)
        :: packBytes rest
  | _ => []

/-- Maps a fallible function over a list, failing as a whole when any
element fails. -/
def mapO (f : α → Option β) : List α → Option (List β)
  | [] => some []
  | a :: as =>
    match f a, mapO f as with
    | some b, some bs => some (b :: bs)
    | _, _ => none

theorem mapO_eq_none_of_mem (f : α → Option β) (l : List α) (a : α)
    (ha : a ∈ l) (hf : f a = none) : mapO f l = none := by
  induction l with
  | nil => simp at ha
  | cons x xs ih =>
    rcases List.mem_cons.mp ha with h | h
    · subst h
      simp [mapO, hf]
    · simp only [mapO, ih h]
      cases f x <;> rfl

/-- Modelled from the spec: the base-32 boundary ("decode the body substring
using the standard (unpadded) base-32 alphabet into a byte sequence";
"any character outside the alphabet, or structurally invalid grouping,
yields a single diagnosis"). An unpadded encoding has a character count
whose remainder mod 8 is never 1, 3 or 6; every character carries five
bits, and the complete eight-bit groups are the decoded bytes. -/
def base32Decode (cs : List Char) : Option (List Nat) :=
  if cs.length % 8 = 1 ∨ cs.length % 8 = 3 ∨ cs.length % 8 = 6 then none
  else
    match mapO b32val cs with
    | none => none
    | some vs => some (packBytes (flat5 vs))

/-- Characters of the literal `"NZCP:/"` stripped first by
`QrBarcode::from_str`. -/
def nzcpHeader : List Char := ['N', 'Z', 'C', 'P', ':', '/']

/-- Characters of the literal `"1/"`, the version segment
`QrBarcode::from_str` strips second. -/
def verSegment : List Char := ['1', '/']

/-- Characters of `"NZCP:/1/"`, the full header of a version-1 barcode. -/
def nzcp1Header : List Char := nzcpHeader ++ verSegment

/-- Models `QrBarcode::from_str` (`payload/barcode.rs`): strip `"NZCP:/"`
(else `MissingNzcpPrefix`), strip `"1/"` (else `InvalidVersion`), then
base-32 decode the remainder (else `InvalidBase32`); the decoded bytes are
the `QrBarcode`'s contents. -/
def QrBarcode.from_str (s : List Char) : Except QrBarcodeError (List Nat) :=
  match stripPfx nzcpHeader s with
  | none => .error .MissingNzcpPrefix
  | some rest =>
    match stripPfx verSegment rest with
    | none => .error .InvalidVersion
    | some body =>
      match base32Decode body with
      | none => .error .InvalidBase32
      | some bytes => .ok bytes

theorem base32Decode_eq_none_of_invalid (body : List Char)
    (h : (∃ c ∈ body, b32val c = none) ∨
      body.length % 8 = 1 ∨ body.length % 8 = 3 ∨ body.length % 8 = 6) :
    base32Decode body = none := by
  unfold base32Decode
  by_cases hl : body.length % 8 = 1 ∨ body.length % 8 = 3 ∨ body.length % 8 = 6
  · simp [hl]
  · rcases h with ⟨c, hc, hb⟩ | hlen
    · simp [hl, mapO_eq_none_of_mem b32val body c hc hb]
    · exact absurd hlen hl

/-- C5: for every `body` that is a valid unpadded RFC 4648 base-32
encoding (i.e. `base32Decode body = some bs`), `QrBarcode::from_str`
succeeds on `"NZCP:/1/" ++ body` and the resulting bytes are exactly the
base-32 decoding of `body`: the body substring reaches the base-32
boundary unmodified. -/
theorem from_str_valid_base32_roundtrip (body : List Char) (bs : List Nat)
    (h : base32Decode body = some bs) :
    QrBarcode.from_str (nzcp1Header ++ body) = .ok bs := by
  have h1 : nzcp1Header ++ body = nzcpHeader ++ (verSegment ++ body) := by
    simp [nzcp1Header]
  rw [h1]
  simp [QrBarcode.from_str, stripPfx_self_append, h]

theorem from_str_valid_base32_roundtrip_witness :
    base32Decode ['A', 'A'] = some [0] ∧
      QrBarcode.from_str (nzcp1Header ++ ['A', 'A']) = .ok [0] :=
  ⟨by decide, from_str_valid_base32_roundtrip ['A', 'A'] [0] (by decide)⟩

/-- C7: for every input starting with `"NZCP:/"` whose following version
segment is not `"1"` followed by `"/"`, `QrBarcode::from_str` fails with
`InvalidVersion` (the unsupported-version diagnosis): no future version is
ever parsed. -/
theorem from_str_bad_version (rest : List Char)
    (h : verSegment.isPrefixOf rest = false) :
    QrBarcode.from_str (nzcpHeader ++ rest) = .error .InvalidVersion := by
  have h2 := stripPfx_eq_none_of_not_isPrefixOf verSegment rest h
  simp [QrBarcode.from_str, stripPfx_self_append, h2]

theorem from_str_bad_version_witness :
    QrBarcode.from_str (nzcpHeader ++ ['2', '/', 'A']) = .error .InvalidVersion :=
  from_str_bad_version ['2', '/', 'A'] (by decide)

/-- C8: for every input `"NZCP:/1/" ++ body` where `body` holds a character
outside the unpadded RFC 4648 base-32 alphabet, or has a structurally
invalid grouping (a character count ≡ 1, 3 or 6 mod 8), `QrBarcode::from_str`
fails with the single `InvalidBase32` diagnosis and performs no partial
recovery. -/
theorem from_str_invalid_base32 (body : List Char)
    (h : (∃ c ∈ body, b32val c = none) ∨
      body.length % 8 = 1 ∨ body.length % 8 = 3 ∨ body.length % 8 = 6) :
    QrBarcode.from_str (nzcp1Header ++ body) = .error .InvalidBase32 := by
  have h1 : nzcp1Header ++ body = nzcpHeader ++ (verSegment ++ body) := by
    simp [nzcp1Header]
  rw [h1]
  simp [QrBarcode.from_str, stripPfx_self_append,
    base32Decode_eq_none_of_invalid body h]

theorem from_str_invalid_base32_witness :
    QrBarcode.from_str (nzcp1Header ++ ['A', '!']) = .error .InvalidBase32 :=
  from_str_invalid_base32 ['A', '!'] (Or.inl (by decide))

/-- C10: parsing the exact input `"NZCP:/1/"` (correct prefix and version,
empty body) succeeds and yields the empty byte sequence: no minimum body
length is imposed. -/
theorem from_str_empty_body : QrBarcode.from_str nzcp1Header = .ok [] := rfl

/-- Value model of the self-describing binary format (the serde data model
a `serde_cbor::Deserializer` presents to the derived deserializers).
Modelled from the spec: the byte-level CBOR grammar belongs to the external
`serde_cbor` crate ("this design does not define a general-purpose CBOR
library"); the repository's own code consumes the structured value. -/
inductive CborValue where
  | int (n : Int)
  | text (s : List Char)
  | bytes (bs : List Nat)
  | array (xs : List CborValue)
  | map (es : List (CborValue × CborValue))

/-- Deserialization diagnoses, following serde's error constructors as the
repository's derived and hand-written deserializers produce them. -/
inductive DeError where
  | invalidType
  | invalidLength
  | duplicateField (name : String)
  | missingField (name : String)
  | custom (msg : String)
deriving DecidableEq, Repr

/-- Outcome of running a deserializer: a value, a serde error, or a Rust
panic (an abort that is not an error value). -/
inductive DRes (α : Type) where
  | ok (a : α)
  | err (e : DeError)
  | panic

def DRes.bind {α β : Type} : DRes α → (α → DRes β) → DRes β
  | .ok a, f => f a
  | .err e, _ => .err e
  | .panic, _ => .panic

def DRes.isOk {α : Type} : DRes α → Bool
  | .ok _ => true
  | _ => false

/-- Left fold whose step may fail or panic, stopping at the first
non-success (serde's `while let Some(key) = map.next_key()?` loop with
`?` on every step). -/
def dfoldl {α β : Type} (f : β → α → DRes β) : β → List α → DRes β
  | b, [] => .ok b
  | b, a :: as => (f b a).bind fun b2 => dfoldl f b2 as

/-- Deserializer for a borrowed string field (`&str`): a text value is the
string itself, anything else is a serde invalid-type error. -/
def strDe : CborValue → DRes (List Char)
  | .text s => .ok s
  | _ => .err .invalidType

/-- Closed set of issuer identifier schemes (`DecentralizedIdentifier` in
`payload/cwt.rs`): exactly one variant, `Web`, holding the part after
`did:web:`. -/
inductive DecentralizedIdentifier where
  | Web (domain : List Char)
deriving DecidableEq, Repr

/-- Characters of the literal `"did:web:"` recognised by the DID visitor. -/
def didScheme : List Char := ['d', 'i', 'd', ':', 'w', 'e', 'b', ':']

/-- Models `DecentralizedIdentifierVisitor::visit_borrowed_str`
(`payload/cwt.rs`): strip `"did:web:"` and wrap the remainder in `Web`,
otherwise the custom serde error `"invalid DID"`. -/
def didVisitStr (s : List Char) : Except DeError DecentralizedIdentifier :=
  match stripPfx didScheme s with
  | some identifier => .ok (.Web identifier)
  | none => .error (.custom "invalid DID")

/-- Models `Deserialize for DecentralizedIdentifier`: `deserialize_str`
hands a text value to the visitor's `visit_borrowed_str`; any other value
shape is a serde invalid-type error. -/
def didDe : CborValue → DRes DecentralizedIdentifier
  | .text s =>
    match didVisitStr s with
    | .ok d => .ok d
    | .error e => .err e
  | _ => .err .invalidType

/-- Calendar timestamp with second precision, the image of chrono's
`NaiveDateTime` under `from_timestamp(secs, 0)`: the count of seconds
since the epoch. -/
structure ModelDateTime where
  secs : Int
deriving DecidableEq, Repr

/-- Smallest epoch-seconds value representable by the calendar type
(chrono year -262144, 1 January, 00:00:00). -/
def minCalendarSecs : Int := -8334632851200

/-- Largest epoch-seconds value representable by the calendar type
(chrono year 262143, 31 December, 23:59:59). -/
def maxCalendarSecs : Int := 8210298412799

/-- Models chrono `NaiveDateTime::from_timestamp_opt(secs, 0)`: `none`
outside the representable calendar range. -/
def fromTimestampOpt (secs : Int) : Option ModelDateTime :=
  if minCalendarSecs ≤ secs ∧ secs ≤ maxCalendarSecs then some ⟨secs⟩ else none

/-- Deserializer for `i64` (serde): an integer within the 64-bit signed
range, anything else a serde error. -/
def i64De : CborValue → DRes Int
  | .int n => if -(2 ^ 63) ≤ n ∧ n < 2 ^ 63 then .ok n else .err .invalidType
  | _ => .err .invalidType

/-- Models `deserialize_numeric_date` (`payload/cwt.rs`): deserialize an
`i64` (propagating its error with `?`), then call chrono
`NaiveDateTime::from_timestamp(epoch_seconds, 0)` — which PANICS when
`from_timestamp_opt` is `none`, i.e. outside the representable calendar
range. The panic is `DRes.panic`, not an error value. -/
def deserialize_numeric_date (v : CborValue) : DRes ModelDateTime :=
  match i64De v with
  | .err e => .err e
  | .panic => .panic
  | .ok epoch_seconds =>
    match fromTimestampOpt epoch_seconds with
    | some d => .ok d
    | none => .panic

/-- Value of one hexadecimal digit. -/
def hexVal (c : Char) : Option Nat :=
  if '0' ≤ c ∧ c ≤ '9' then some (c.toNat - 48)
  else if 'a' ≤ c ∧ c ≤ 'f' then some (c.toNat - 87)
  else if 'A' ≤ c ∧ c ≤ 'F' then some (c.toNat - 55)
  else none

/-- Reads exactly `n` hexadecimal digits, returning their value and the
remaining characters. -/
def hexDigits : Nat → List Char → Option (Nat × List Char)
  | 0, cs => some (0, cs)
  | _ + 1, [] => none
  | n + 1, c :: cs =>
    match hexVal c with
    | none => none
    | some v =>
      match hexDigits n cs with
      | none => none
      | some (acc, rest) => some (v * 16 ^ n + acc, rest)

/-- Characters of the literal `"urn:uuid:"` wrapper. -/
def urnUuidScheme : List Char := ['u', 'r', 'n', ':', 'u', 'u', 'i', 'd', ':']

/-- Modelled from the spec: the credential id is "decoded as a
UUID-formatted identifier, accepting a URN-style `urn:uuid:<uuid>`
wrapper" (the `uuid` crate is external). The hyphenated 8-4-4-4-12 hex
form, with an optional `urn:uuid:` wrapper, yields the 128-bit value. -/
def uuidParse (s : List Char) : Option Nat :=
  let t := match stripPfx urnUuidScheme s with
    | some r => r
    | none => s
  match hexDigits 8 t with
  | none => none
  | some (a, r1) =>
    match r1 with
    | '-' :: r1b =>
      match hexDigits 4 r1b with
      | none => none
      | some (b, r2) =>
        match r2 with
        | '-' :: r2b =>
          match hexDigits 4 r2b with
          | none => none
          | some (c, r3) =>
            match r3 with
            | '-' :: r3b =>
              match hexDigits 4 r3b with
              | none => none
              | some (d, r4) =>
                match r4 with
                | '-' :: r4b =>
                  match hexDigits 12 r4b with
                  | some (e, []) =>
                    some ((((a * 2 ^ 16 + b) * 2 ^ 16 + c) * 2 ^ 16 + d) * 2 ^ 48 + e)
                  | _ => none
                | _ => none
            | _ => none
        | _ => none
    | _ => none

/-- Deserializer for the `cti` field's `Uuid`: a text value parsed as a
UUID, otherwise a serde error. -/
def uuidDe : CborValue → DRes Nat
  | .text s =>
    match uuidParse s with
    | some u => .ok u
    | none => .err (.custom "UUID parsing failed")
  | _ => .err .invalidType

/-- Deserializer for the `@context` field (`Vec<&'a str>`): an array whose
elements are all text; any non-text element or non-array shape is a serde
invalid-type error. An empty array is accepted (it is a valid `Vec`). -/
def contextDe : CborValue → DRes (List (List Char))
  | .array xs =>
    match mapO (fun v => match v with | CborValue.text s => some s | _ => none) xs with
    | some ss => .ok ss
    | none => .err .invalidType
  | _ => .err .invalidType

/-- Deserializer for the `type` field (`(&'a str, &'a str)`): an array of
exactly two text elements; a different arity is a serde invalid-length
error, a non-array an invalid-type error. -/
def typeDe : CborValue → DRes (List Char × List Char)
  | .array [a, b] =>
    (strDe a).bind fun s1 => (strDe b).bind fun s2 => .ok (s1, s2)
  | .array _ => .err .invalidLength
  | _ => .err .invalidType

/-- Typed verifiable-credential envelope (`VerifiableCredential<'a, T>` in
`payload/cwt.rs`): context list, two-element type tag, version string and
the generically typed credential subject. -/
structure VerifiableCredential (σ : Type) where
  context : List (List Char)
  type_tag : List Char × List Char
  version : List Char
  credential_subject : σ
deriving Repr

/-- Field identifier of the derived `VerifiableCredential` deserializer
(the serde rename attributes give the keys `@context`, `type`, `version`,
`credentialSubject`). -/
inductive VcField where
  | context
  | vtype
  | version
  | credentialSubject
  | ignore

/-- Key dispatch of the derived `VerifiableCredential` deserializer: a text
key is matched against the field names (unknown keys are ignored), an
integer key selects a field by declaration index (serde's `visit_u64`),
any other key shape is a serde invalid-type error. -/
def vcKeyField : CborValue → Except DeError VcField
  | .text k =>
    .ok (if k = "@context".data then .context
      else if k = "type".data then .vtype
      else if k = "version".data then .version
      else if k = "credentialSubject".data then .credentialSubject
      else .ignore)
  | .int n =>
    .ok (if n = 0 then .context
      else if n = 1 then .vtype
      else if n = 2 then .version
      else if n = 3 then .credentialSubject
      else .ignore)
  | _ => .error .invalidType

/-- Accumulator of the derived `VerifiableCredential` map visitor: each
field is `none` until its key has been seen. -/
structure VcAcc (σ : Type) where
  context : Option (List (List Char)) := none
  vtype : Option (List Char × List Char) := none
  version : Option (List Char) := none
  subject : Option σ := none

/-- One map entry of the derived `VerifiableCredential` visitor: dispatch
the key, reject a duplicate field, deserialize the value into its slot;
unknown keys are ignored with their values. -/
def vcStep {σ : Type} (sd : CborValue → DRes σ) (acc : VcAcc σ) :
    CborValue × CborValue → DRes (VcAcc σ)
  | (k, v) =>
    match vcKeyField k with
    | .error e => .err e
    | .ok .context =>
      match acc.context with
      | some _ => .err (.duplicateField "@context")
      | none => (contextDe v).bind fun c => .ok { acc with context := some c }
    | .ok .vtype =>
      match acc.vtype with
      | some _ => .err (.duplicateField "type")
      | none => (typeDe v).bind fun t => .ok { acc with vtype := some t }
    | .ok .version =>
      match acc.version with
      | some _ => .err (.duplicateField "version")
      | none => (strDe v).bind fun s => .ok { acc with version := some s }
    | .ok .credentialSubject =>
      match acc.subject with
      | some _ => .err (.duplicateField "credentialSubject")
      | none => (sd v).bind fun s => .ok { acc with subject := some s }
    | .ok .ignore => .ok acc

/-- End of the derived `VerifiableCredential` map visitor: every field must
have been seen, the first missing one (in declaration order) names the
serde missing-field error. -/
def vcFinish {σ : Type} (acc : VcAcc σ) : DRes (VerifiableCredential σ) :=
  match acc.context with
  | none => .err (.missingField "@context")
  | some c =>
    match acc.vtype with
    | none => .err (.missingField "type")
    | some t =>
      match acc.version with
      | none => .err (.missingField "version")
      | some ver =>
        match acc.subject with
        | none => .err (.missingField "credentialSubject")
        | some s => .ok ⟨c, t, ver, s⟩

/-- Derived deserializer of `VerifiableCredential<'a, T>`, parameterized by
the subject type's deserializer `sd`: a map is visited entry by entry, any
other shape is a serde invalid-type error. The positional (sequence) form
of serde's derived visitor is not modelled (no property here uses it). -/
def deserializeVC {σ : Type} (sd : CborValue → DRes σ) : CborValue → DRes (VerifiableCredential σ)
  | .map es => (dfoldl (vcStep sd) {} es).bind vcFinish
  | _ => .err .invalidType

/-- Typed CWT record (`CwtPayload<'a, T>` in `payload/cwt.rs`): token id
(the 128-bit UUID value), issuer, validity window and the nested
verifiable-credential envelope. -/
structure CwtPayload (σ : Type) where
  cwt_token_id : Nat
  issuer : DecentralizedIdentifier
  not_before : ModelDateTime
  expiry : ModelDateTime
  verifiable_credential : VerifiableCredential σ
deriving Repr

/-- Field identifier of the derived `CwtPayload` deserializer (the serde
rename attributes give the keys `cti`, `iss`, `nbf`, `exp`, `vc`). -/
inductive CwtField where
  | cti
  | iss
  | nbf
  | exp
  | vc
  | ignore

/-- Key dispatch of the derived `CwtPayload` deserializer: text keys match
the renamed field names, integer keys select by declaration index, unknown
keys are ignored, other key shapes are serde invalid-type errors. -/
def cwtKeyField : CborValue → Except DeError CwtField
  | .text k =>
    .ok (if k = "cti".data then .cti
      else if k = "iss".data then .iss
      else if k = "nbf".data then .nbf
      else if k = "exp".data then .exp
      else if k = "vc".data then .vc
      else .ignore)
  | .int n =>
    .ok (if n = 0 then .cti
      else if n = 1 then .iss
      else if n = 2 then .nbf
      else if n = 3 then .exp
      else if n = 4 then .vc
      else .ignore)
  | _ => .error .invalidType

/-- Accumulator of the derived `CwtPayload` map visitor. -/
structure CwtAcc (σ : Type) where
  cti : Option Nat := none
  iss : Option DecentralizedIdentifier := none
  nbf : Option ModelDateTime := none
  exp : Option ModelDateTime := none
  vc : Option (VerifiableCredential σ) := none

/-- One map entry of the derived `CwtPayload` visitor; the `nbf` and `exp`
values go through `deserialize_numeric_date` (the `deserialize_with`
functions), so a panic there propagates. -/
def cwtStep {σ : Type} (sd : CborValue → DRes σ) (acc : CwtAcc σ) :
    CborValue × CborValue → DRes (CwtAcc σ)
  | (k, v) =>
    match cwtKeyField k with
    | .error e => .err e
    | .ok .cti =>
      match acc.cti with
      | some _ => .err (.duplicateField "cti")
      | none => (uuidDe v).bind fun u => .ok { acc with cti := some u }
    | .ok .iss =>
      match acc.iss with
      | some _ => .err (.duplicateField "iss")
      | none => (didDe v).bind fun d => .ok { acc with iss := some d }
    | .ok .nbf =>
      match acc.nbf with
      | some _ => .err (.duplicateField "nbf")
      | none => (deserialize_numeric_date v).bind fun t => .ok { acc with nbf := some t }
    | .ok .exp =>
      match acc.exp with
      | some _ => .err (.duplicateField "exp")
      | none => (deserialize_numeric_date v).bind fun t => .ok { acc with exp := some t }
    | .ok .vc =>
      match acc.vc with
      | some _ => .err (.duplicateField "vc")
      | none => (deserializeVC sd v).bind fun c => .ok { acc with vc := some c }
    | .ok .ignore => .ok acc

/-- End of the derived `CwtPayload` map visitor: the first missing required
field, in declaration order (`cti`, `iss`, `nbf`, `exp`, `vc`), names the
serde missing-field error. -/
def cwtFinish {σ : Type} (acc : CwtAcc σ) : DRes (CwtPayload σ) :=
  match acc.cti with
  | none => .err (.missingField "cti")
  | some c =>
    match acc.iss with
    | none => .err (.missingField "iss")
    | some i =>
      match acc.nbf with
      | none => .err (.missingField "nbf")
      | some n =>
        match acc.exp with
        | none => .err (.missingField "exp")
        | some e =>
          match acc.vc with
          | none => .err (.missingField "vc")
          | some v => .ok ⟨c, i, n, e, v⟩

/-- Derived deserializer of `CwtPayload<'a, T>` over the structured value
the barcode bytes encode, parameterized by the subject deserializer. -/
def deserializeCwtPayload {σ : Type} (sd : CborValue → DRes σ) :
    CborValue → DRes (CwtPayload σ)
  | .map es => (dfoldl (cwtStep sd) {} es).bind cwtFinish
  | _ => .err .invalidType

/-- Models `CwtPayload::from_barcode` (`payload/cwt.rs`): the function's
Rust type is `Result<Self, ()>`, but its body is
`Ok(CwtPayload::deserialize(&mut deserializer).unwrap())`: a successful
deserialization is wrapped in `Ok`, and ANY deserialization failure hits
`.unwrap()` and panics (`none` here); an `Err` value is never produced, so
the error side of the result is the uninhabited-in-practice `Except.error
()`. A panic inside the deserializer (`deserialize_numeric_date`) also
propagates as a panic. The byte-level `serde_cbor` parsing is external to
the repository; the deserializer is applied to the structured value the
`QrBarcode` bytes encode. -/
def CwtPayload.from_barcode {σ : Type} (sd : CborValue → DRes σ) (v : CborValue) :
    Option (Except Unit (CwtPayload σ)) :=
  match deserializeCwtPayload sd v with
  | .ok p => some (.ok p)
  | .err _ => none
  | .panic => none

/-- Error taxonomy of the PublicCovidPass subject
(`PublicCovidPassError` in `pass/public_covid_pass.rs`). -/
inductive PublicCovidPassError where
  | InvalidDateOfBirth
deriving DecidableEq, Repr

/-- Display message of a `PublicCovidPassError` (its `thiserror` text),
the payload of the serde custom error raised by the `dob` deserializer. -/
def PublicCovidPassError.message : PublicCovidPassError → String
  | .InvalidDateOfBirth => "The given date of birth was invalid."

/-- Calendar date (chrono `NaiveDate` as produced by the strict
`YYYY-MM-DD` parse). -/
structure ModelDate where
  year : Nat
  month : Nat
  day : Nat
deriving DecidableEq, Repr

/-- Value of one decimal digit. -/
def digitVal (c : Char) : Option Nat :=
  if '0' ≤ c ∧ c ≤ '9' then some (c.toNat - 48) else none

def isLeapYear (y : Nat) : Bool :=
  (y % 4 == 0 && y % 100 != 0) || y % 400 == 0

def daysInMonth (y m : Nat) : Nat :=
  if m = 2 then (if isLeapYear y then 29 else 28)
  else if m = 4 ∨ m = 6 ∨ m = 9 ∨ m = 11 then 30
  else 31

/-- Modelled from the spec: the `dob` field must be "ISO-8601
calendar-date text (`YYYY-MM-DD`)" and an "impossible calendar date" must
fail (the `%Y-%m-%d` parse itself lives in the external chrono crate).
Exactly four year digits, two month digits and two day digits separated by
hyphens, with a month 1..12 and a day valid for that month and year. -/
def parseISODate : List Char → Option ModelDate
  | [y1, y2, y3, y4, '-', m1, m2, '-', d1, d2] =>
    match digitVal y1, digitVal y2, digitVal y3, digitVal y4,
        digitVal m1, digitVal m2, digitVal d1, digitVal d2 with
    | some a, some b, some c, some d, some e, some f, some g, some h =>
      let y := 1000 * a + 100 * b + 10 * c + d
      let m := 10 * e + f
      let dd := 10 * g + h
      if 1 ≤ m ∧ m ≤ 12 ∧ 1 ≤ dd ∧ dd ≤ daysInMonth y m then some ⟨y, m, dd⟩
      else none
    | _, _, _, _, _, _, _, _ => none
  | _ => none

/-- Models `deserialize_iso_8601_date` (`pass/public_covid_pass.rs`):
deserialize a `&str` (propagating its error with `?`), then parse it as a
date; a parse failure is mapped to the serde custom error carrying
`PublicCovidPassError::InvalidDateOfBirth`'s message — the distinct
invalid-date-of-birth diagnosis. -/
def deserialize_iso_8601_date (v : CborValue) : DRes ModelDate :=
  match strDe v with
  | .err e => .err e
  | .panic => .panic
  | .ok s =>
    match parseISODate s with
    | some d => .ok d
    | none => .err (.custom (PublicCovidPassError.message .InvalidDateOfBirth))

/-- Credential subject of the example pass type (`PublicCovidPass` in
`pass/public_covid_pass.rs`). -/
structure PublicCovidPass where
  given_name : List Char
  family_name : List Char
  date_of_birth : ModelDate
deriving DecidableEq, Repr

/-- Constant declared by `impl Pass for PublicCovidPass`: the credential
type tag this subject claims to decode (`Pass::CREDENTIAL_TYPE`). -/
def PublicCovidPass.CREDENTIAL_TYPE : String := "PublicCovidPass"

/-- Field identifier of the derived `PublicCovidPass` deserializer (the
serde rename attributes give the keys `givenName`, `familyName`, `dob`). -/
inductive PcpField where
  | givenName
  | familyName
  | dob
  | ignore

/-- Key dispatch of the derived `PublicCovidPass` deserializer. -/
def pcpKeyField : CborValue → Except DeError PcpField
  | .text k =>
    .ok (if k = "givenName".data then .givenName
      else if k = "familyName".data then .familyName
      else if k = "dob".data then .dob
      else .ignore)
  | .int n =>
    .ok (if n = 0 then .givenName
      else if n = 1 then .familyName
      else if n = 2 then .dob
      else .ignore)
  | _ => .error .invalidType

/-- Accumulator of the derived `PublicCovidPass` map visitor. -/
structure PcpAcc where
  givenName : Option (List Char) := none
  familyName : Option (List Char) := none
  dob : Option ModelDate := none

/-- One map entry of the derived `PublicCovidPass` visitor; the `dob`
value goes through `deserialize_iso_8601_date`. -/
def pcpStep (acc : PcpAcc) : CborValue × CborValue → DRes PcpAcc
  | (k, v) =>
    match pcpKeyField k with
    | .error e => .err e
    | .ok .givenName =>
      match acc.givenName with
      | some _ => .err (.duplicateField "givenName")
      | none => (strDe v).bind fun s => .ok { acc with givenName := some s }
    | .ok .familyName =>
      match acc.familyName with
      | some _ => .err (.duplicateField "familyName")
      | none => (strDe v).bind fun s => .ok { acc with familyName := some s }
    | .ok .dob =>
      match acc.dob with
      | some _ => .err (.duplicateField "dob")
      | none => (deserialize_iso_8601_date v).bind fun d => .ok { acc with dob := some d }
    | .ok .ignore => .ok acc

/-- End of the derived `PublicCovidPass` map visitor. -/
def pcpFinish (acc : PcpAcc) : DRes PublicCovidPass :=
  match acc.givenName with
  | none => .err (.missingField "givenName")
  | some g =>
    match acc.familyName with
    | none => .err (.missingField "familyName")
    | some f =>
      match acc.dob with
      | none => .err (.missingField "dob")
      | some d => .ok ⟨g, f, d⟩

/-- Derived deserializer of `PublicCovidPass`. -/
def deserializePCP : CborValue → DRes PublicCovidPass
  | .map es => (dfoldl pcpStep {} es).bind pcpFinish
  | _ => .err .invalidType

/-- C1: `CwtPayload::from_barcode` does NOT return an error value for a
malformed CWT record — its body unwraps the deserialization result, so a
record missing a required top-level key (here: the empty map, missing all
of them) makes the inner deserializer fail with the specific
missing-field diagnosis (`missing field cti`), and `from_barcode` then
PANICS (`none`) instead of returning any error value; its error type `()`
could not carry a diagnosis anyway. -/
theorem from_barcode_panics_on_missing_fields :
    deserializeCwtPayload deserializePCP (.map []) = .err (.missingField "cti") ∧
      CwtPayload.from_barcode deserializePCP (.map []) = none :=
  ⟨rfl, rfl⟩

/-- Credential envelope whose `type` tag's second element is
`"SomeOtherPass"` while the decoded subject type is `PublicCovidPass`. -/
def someOtherPassEnv : CborValue := .map [
  (.text "@context".data, .array [.text "https://www.w3.org/2018/credentials/v1".data]),
  (.text "type".data, .array [.text "VerifiableCredential".data, .text "SomeOtherPass".data]),
  (.text "version".data, .text "1.0.0".data),
  (.text "credentialSubject".data, .map [
    (.text "givenName".data, .text "Jack".data),
    (.text "familyName".data, .text "Sparrow".data),
    (.text "dob".data, .text "1960-04-16".data)])]

/-- C2: the envelope deserializer never compares the `type` tag's second
element with the requested subject's `Pass::CREDENTIAL_TYPE` — the
constant is declared but unused by the decode path. A valid envelope whose
second type element is `"SomeOtherPass"`, different from
`PublicCovidPass::CREDENTIAL_TYPE`, still decodes successfully as a
`PublicCovidPass`: no type-mismatch failure happens at any
subject-dispatch step. -/
theorem vc_decodes_mismatched_pass_type :
    "SomeOtherPass".data ≠ PublicCovidPass.CREDENTIAL_TYPE.data ∧
      deserializeVC deserializePCP someOtherPassEnv =
        .ok ⟨["https://www.w3.org/2018/credentials/v1".data],
          ("VerifiableCredential".data, "SomeOtherPass".data),
          "1.0.0".data,
          ⟨"Jack".data, "Sparrow".data, ⟨1960, 4, 16⟩⟩⟩ :=
  ⟨by decide, rfl⟩

/-- C3: an `nbf`/`exp` integer outside the representable calendar range
(here `i64::MAX`) makes `deserialize_numeric_date` PANIC (chrono
`NaiveDateTime::from_timestamp` aborts when `from_timestamp_opt` is
`none`), rather than produce an error result; an in-range value decodes
to exactly that timestamp (no clamping). -/
theorem numeric_date_panics_out_of_range :
    deserialize_numeric_date (.int 9223372036854775807) = .panic ∧
      deserialize_numeric_date (.int 1516239022) = .ok ⟨1516239022⟩ :=
  ⟨rfl, rfl⟩

/-- Credential envelope whose `@context` is the empty array and whose
other fields are valid (subject decoded as a plain string, as the
repository's own envelope test does). -/
def emptyContextEnv : CborValue := .map [
  (.text "@context".data, .array []),
  (.text "type".data, .array [.text "VerifiableCredential".data, .text "PublicCovidPass".data]),
  (.text "version".data, .text "1.0.0".data),
  (.text "credentialSubject".data, .text "helloworld".data)]

/-- C4 counterexample: an envelope whose `@context` decodes as the empty
sequence is NOT a decode failure — it decodes successfully, so the claim
that such an envelope must fail is false at this concrete input. -/
theorem vc_empty_context_accepted_counterexample :
    DRes.isOk (deserializeVC strDe emptyContextEnv) = true ∧
      deserializeVC strDe emptyContextEnv =
        .ok ⟨[], ("VerifiableCredential".data, "PublicCovidPass".data),
          "1.0.0".data, "helloworld".data⟩ :=
  ⟨rfl, rfl⟩

/-- C4 (amended): for every credential-envelope map whose `@context` field
is the empty sequence and whose remaining fields are well-formed, decoding
succeeds and the `context` field is the empty list: the envelope layer
accepts any (possibly empty) sequence of strings and enforces no
non-emptiness. -/
theorem vc_empty_context_decodes (t1 t2 ver subj : List Char) :
    deserializeVC strDe (.map [
      (.text "@context".data, .array []),
      (.text "type".data, .array [.text t1, .text t2]),
      (.text "version".data, .text ver),
      (.text "credentialSubject".data, .text subj)]) =
      .ok ⟨[], (t1, t2), ver, subj⟩ := rfl

/-- C9: for every credential-subject map whose `dob` string does not parse
as a possible `YYYY-MM-DD` calendar date, decoding a `PublicCovidPass`
fails, and the failure carries the distinct invalid-date-of-birth
diagnosis (`PublicCovidPassError::InvalidDateOfBirth`'s message), not a
generic parse failure. -/
theorem pcp_invalid_dob_fails (g f s : List Char)
    (h : parseISODate s = none) :
    deserializePCP (.map [
      (.text "givenName".data, .text g),
      (.text "familyName".data, .text f),
      (.text "dob".data, .text s)]) =
      .err (.custom (PublicCovidPassError.message .InvalidDateOfBirth)) := by
  have key : deserializePCP (.map [
      (.text "givenName".data, .text g),
      (.text "familyName".data, .text f),
      (.text "dob".data, .text s)]) =
      DRes.bind (DRes.bind (DRes.bind
        (match parseISODate s with
          | some d => DRes.ok d
          | none => DRes.err (.custom (PublicCovidPassError.message .InvalidDateOfBirth)))
        (fun d => DRes.ok ⟨some g, some f, some d⟩))
        (fun b => DRes.ok b)) pcpFinish := rfl
  rw [key, h]
  rfl

theorem pcp_invalid_dob_fails_witness :
    deserializePCP (.map [
      (.text "givenName".data, .text ['J']),
      (.text "familyName".data, .text ['D']),
      (.text "dob".data, .text ['2', '0', '2', '1', '-', '0', '2', '-', '3', '0'])]) =
      .err (.custom (PublicCovidPassError.message .InvalidDateOfBirth)) :=
  pcp_invalid_dob_fails ['J'] ['D']
    ['2', '0', '2', '1', '-', '0', '2', '-', '3', '0'] (by decide)

/-- C6: decoding a string as a `DecentralizedIdentifier` succeeds exactly
on the strings beginning with the literal `"did:web:"`; on success the
result is the `Web` variant whose payload is exactly the remainder after
that prefix (which may be empty), and any string without that prefix fails
with the `"invalid DID"` diagnosis. -/
theorem did_visit_str_spec (s : List Char) :
    (∀ r, didVisitStr s = .ok (.Web r) ↔ s = didScheme ++ r) ∧
      (didScheme.isPrefixOf s = false →
        didVisitStr s = .error (.custom "invalid DID")) := by
  constructor
  · intro r
    unfold didVisitStr
    cases hres : stripPfx didScheme s with
    | none =>
      constructor
      · intro hok
        simp at hok
      · intro heq
        rw [heq, stripPfx_self_append] at hres
        cases hres
    | some idr =>
      rw [stripPfx_eq_some_iff] at hres
      subst hres
      constructor
      · intro hok
        simp only [Except.ok.injEq, DecentralizedIdentifier.Web.injEq] at hok
        rw [hok]
      · intro heq
        have hir : idr = r := List.append_cancel_left heq
        rw [hir]
  · intro hnp
    unfold didVisitStr
    rw [stripPfx_eq_none_of_not_isPrefixOf didScheme s hnp]
